import Mathlib

/-!
Shallow embedding of `src/scripts/process_prompt.py`, a sequential batch
pipeline: for each discovered job descriptor it renders a jinja2 template,
calls a remote text-generation endpoint, writes the generated text to a
local file and uploads that file to an object store.  External effects
(filesystem, network) are modelled by explicit oracles carried in a `World`
record; every function below mirrors one Python function of the source.
-/

set_option autoImplicit false

namespace ProcessPrompt

/-- The failure taxonomy of the run.  Python raises built-in exceptions
(`KeyError` on a missing environment variable, `FileNotFoundError` on a
missing template, boto3 client errors, OS errors on writes); each
constructor stands for the exception raised at the corresponding place of
the source. -/
inductive Err where
  | descriptorReadError (path : String)
  | templateNotFoundError (name : String)
  | templateRenderError (name : String)
  | generationServiceError
  | outputWriteError
  | uploadError
  | missingEnvVar (name : String)
  deriving DecidableEq, Repr

deriving instance DecidableEq for Except

/-- A process environment (`os.environ`): an association list from variable
names to values. -/
abbrev EnvMap := List (String × String)

/-- First-match lookup in an association list keyed by strings; models both
`os.environ[k]` / `.get` and Python `dict` access for JSON objects. -/
def lookupKey {α : Type} (m : List (String × α)) (k : String) : Option α :=
  match m with
  | [] => none
  | (k', v) :: rest => if k' = k then some v else lookupKey rest k

/-- One piece of a parsed jinja2 template body: literal text or a
substitution placeholder referencing a variable by name. -/
inductive TplPart where
  | lit (s : String)
  | var (name : String)
  deriving DecidableEq, Repr

/-- A parsed template body, as jinja2 parses the file contents. -/
abbrev TplAst := List TplPart

/-- Model of jinja2 `Template.render` applied to a variable mapping, with the library's
default undefined handling: a placeholder whose variable is present renders
as its value, and a placeholder whose variable is absent renders as the
empty string (the default `Undefined` stringifies to ""); no exception is
raised for an absent variable. -/
def jinjaRender (tpl : TplAst) (vars : List (String × String)) : String :=
  tpl.foldl (fun acc part =>
    acc ++ match part with
           | TplPart.lit s => s
           | TplPart.var n => (lookupKey vars n).getD "") ""

/-- `render_template` (source lines 17-21): opens
`prompt_templates/<template_name>` and renders it with the variable mapping.  The
directory is modelled as an association list from file name to parsed
template body; a missing file is the `FileNotFoundError` raised by `open`. -/
def render_template (templates : List (String × TplAst)) (template_name : String)
    (vars : List (String × String)) : Except Err String :=
  match lookupKey templates template_name with
  | none => Except.error (Err.templateNotFoundError template_name)
  | some tpl => Except.ok (jinjaRender tpl vars)

/-- A JSON value, for the request payload and response body of the
generation call. -/
inductive Json where
  | null
  | bool (b : Bool)
  | num (n : Int)
  | str (s : String)
  | arr (xs : List Json)
  | obj (fields : List (String × Json))

/-- `j[k]` on a JSON object; `none` models Python's `KeyError` /
`TypeError`. -/
def jsonGet? (j : Json) (k : String) : Option Json :=
  match j with
  | Json.obj fields => lookupKey fields k
  | _ => none

/-- `j[i]` on a JSON array; `none` models Python's `IndexError` /
`TypeError`. -/
def jsonIndex? (j : Json) (i : Nat) : Option Json :=
  match j with
  | Json.arr xs => xs.get? i
  | _ => none

/-- The fixed model identifier of the source (line 9). -/
def MODEL_ID : String := "anthropic.claude-3-sonnet-20240229-v1:0"

/-- `call_bedrock(prompt, max_tokens, region)` (source lines 24-41): builds
the request payload, performs one synchronous `invoke_model` call (the
remote service is the oracle argument, taking the region, model id and
payload) and extracts `data["content"][0]["text"]` from the response body.
A transport-level failure of the call, or a response from which the text
field cannot be extracted, is `generationServiceError`. -/
def call_bedrock (invoke_model : String → String → Json → Except Err Json)
    (prompt : String) (max_tokens : Int) (region : String) : Except Err String :=
  let payload : Json := Json.obj
    [ ("anthropic_version", Json.str "bedrock-2023-05-31"),
      ("max_tokens", Json.num max_tokens),
      ("messages", Json.arr
        [ Json.obj [ ("role", Json.str "user"),
                     ("content", Json.str ("Human: " ++ prompt)) ] ]) ]
  match invoke_model region MODEL_ID payload with
  | Except.error e => Except.error e
  | Except.ok data =>
    match ((jsonGet? data "content").bind (jsonIndex? · 0)).bind (jsonGet? · "text") with
    | some (Json.str text) => Except.ok text
    | _ => Except.error Err.generationServiceError

/-- The extension chosen by `save_output` (source line 45):
`"html" if fmt == "html" else "md"`. -/
def outputExt (fmt : String) : String :=
  if fmt = "html" then "html" else "md"

/-- Whether a POSIX path string is absolute (begins with a slash). -/
def isAbs (s : String) : Bool :=
  match s.data with
  | [] => false
  | c :: _ => c = '/'

/-- Model of `pathlib.PurePosixPath` `/` join: when the right operand is
absolute it replaces the left operand entirely, otherwise the pieces are
joined with a slash. -/
def pathJoin (a b : String) : String :=
  if isAbs b then b else a ++ "/" ++ b

/-- Model of `pathlib.PurePath.name`: the final path component, i.e. the
characters after the last slash. -/
def pathName (p : String) : String :=
  String.mk ((p.data.reverse.takeWhile (fun c => c ≠ '/')).reverse)

/-- Model of `pathlib.PurePath.suffix`: the extension of the final
component, from its last dot to its end, empty when the last dot is absent,
leading or trailing (pathlib computes `name.rfind` of the dot and requires
`0 < i < len(name) - 1`). -/
def pathSuffix (p : String) : String :=
  let cs := (pathName p).data
  let tail := cs.reverse.takeWhile (fun c => c ≠ '.')
  if cs.contains '.' then
    let i := cs.length - tail.length - 1
    if 0 < i ∧ i < cs.length - 1 then String.mk ('.' :: tail.reverse) else ""
  else ""

/-- `save_output(slug, fmt, content)` (source lines 44-52): derives the
extension from the format tag, forms `Path("outputs") / f"{slug}.{ext}"`
and writes the content there, returning the path.  The filesystem's
willingness to perform the write is the oracle `writeOk`; a refusal is the
OS error of the `open`/`write` (the spec's `OutputWriteError`). -/
def save_output (writeOk : String → Bool) (slug fmt content : String) :
    Except Err String :=
  let ext := outputExt fmt
  let file_path := pathJoin "outputs" (slug ++ "." ++ ext)
  if writeOk file_path then Except.ok file_path else Except.error Err.outputWriteError

/-- One completed S3 upload, as observed by the object store: the bucket,
object key and content type of the `upload_file` call, and the region the
client was created with. -/
structure Upload where
  bucket : String
  key : String
  contentType : String
  region : String
  deriving DecidableEq, Repr

/-- `upload_to_s3(file_path, environment)` (source lines 55-73): reads
`AWS_REGION` and `S3_BUCKET` from the ambient environment **at call time**
(`envNow`), derives the object key `<environment>/outputs/<file name>` and
the content type from the file's extension, and uploads.  A missing
environment variable is Python's `KeyError`; a transfer refusal by the
oracle `uploadOk` is the spec's `UploadError`. -/
def upload_to_s3 (envNow : EnvMap) (uploadOk : String → String → Bool)
    (file_path environment : String) : Except Err Upload :=
  match lookupKey envNow "AWS_REGION" with
  | none => Except.error (Err.missingEnvVar "AWS_REGION")
  | some region =>
    match lookupKey envNow "S3_BUCKET" with
    | none => Except.error (Err.missingEnvVar "S3_BUCKET")
    | some bucket =>
      let key := (environment ++ "/outputs/") ++ pathName file_path
      let content_type := if pathSuffix file_path = ".html" then "text/html" else "text/markdown"
      if uploadOk bucket key then
        Except.ok { bucket := bucket, key := key, contentType := content_type, region := region }
      else Except.error Err.uploadError

/-- A job descriptor as consumed by `main`: the five fields read from the
JSON file: template, the variable mapping, `cfg["max_tokens"]`,
`cfg["slug"]`, `cfg["output_format"]`). -/
structure Descriptor where
  template : String
  vars : List (String × String)
  max_tokens : Int
  slug : String
  output_format : String
  deriving DecidableEq, Repr

/-- The external context of one run, apart from the startup environment and
the discovered descriptors: the template directory, the generation service,
and the filesystem / object-store / ambient-environment oracles. -/
structure Ctx where
  templates : List (String × TplAst)
  invoke_model : String → String → Json → Except Err Json
  writeOk : String → Bool
  uploadOk : String → String → Bool
  envAtUpload : Nat → EnvMap

/-- A whole run's external world: the context, the process environment as it
stands at startup, and the `glob.glob("prompts/*.json")` result in discovery
order, each path paired with the outcome of `load_config` on it (a parse or
read failure is the spec's `DescriptorReadError`). -/
structure World extends Ctx where
  env0 : EnvMap
  descriptors : List (String × Except Err Descriptor)

/-- The observable local and remote effects of a run: the output files
written (path and contents, in order) and the uploads performed. -/
structure Trace where
  written : List (String × String)
  uploads : List Upload
  deriving DecidableEq, Repr

/-- The body of `main`'s for-loop (source lines 80-88), iterated over the
remaining descriptors: each job runs load → render → generate → write →
upload; the first exception stops everything, the trace accumulates the
effects so far.  `i` counts jobs already attempted, indexing the ambient
environment snapshot each upload reads. -/
def processJobs (c : Ctx) (environment region : String) :
    Nat → List (String × Except Err Descriptor) → Trace → Trace × Option Err
  | _, [], tr => (tr, none)
  | i, (_, dres) :: rest, tr =>
    match dres with
    | Except.error e => (tr, some e)
    | Except.ok cfg =>
      match render_template c.templates cfg.template cfg.vars with
      | Except.error e => (tr, some e)
      | Except.ok prompt =>
        match call_bedrock c.invoke_model prompt cfg.max_tokens region with
        | Except.error e => (tr, some e)
        | Except.ok output =>
          match save_output c.writeOk cfg.slug cfg.output_format output with
          | Except.error e => (tr, some e)
          | Except.ok out_file =>
            let tr' : Trace := ⟨tr.written ++ [(out_file, output)], tr.uploads⟩
            match upload_to_s3 (c.envAtUpload i) c.uploadOk out_file environment with
            | Except.error e => (tr', some e)
            | Except.ok up =>
              processJobs c environment region (i + 1) rest ⟨tr'.written, tr'.uploads ++ [up]⟩

/-- `main()` (source lines 76-88): reads `ENVIRONMENT` (default "beta") and
`AWS_REGION` from the startup environment — the latter access raises
`KeyError` when unset — then runs every discovered job in order.  Returns
the effect trace together with the uncaught exception, if any. -/
def main (w : World) : Trace × Option Err :=
  let environment := (lookupKey w.env0 "ENVIRONMENT").getD "beta"
  match lookupKey w.env0 "AWS_REGION" with
  | none => (⟨[], []⟩, some (Err.missingEnvVar "AWS_REGION"))
  | some region => processJobs w.toCtx environment region 0 w.descriptors ⟨[], []⟩

/-! ### Shared helper lemmas -/

theorem strAppend_data (s t : String) : (s ++ t).data = s.data ++ t.data := by
  cases s; cases t; rfl

theorem strAppend_assoc (s t u : String) : (s ++ t) ++ u = s ++ (t ++ u) := by
  cases s; cases t; cases u
  show String.mk _ = String.mk _
  rw [List.append_assoc]

theorem isAbs_append (s t : String) (ht : isAbs t = false) :
    isAbs (s ++ t) = isAbs s := by
  cases s with
  | mk data =>
    cases data with
    | nil =>
      have : (String.mk [] ++ t) = t := by
        cases t; show String.mk _ = _; rw [List.nil_append]
      rw [this, ht]; rfl
    | cons c cs =>
      show isAbs (String.mk (c :: cs) ++ t) = _
      have hdata : (String.mk (c :: cs) ++ t).data = c :: (cs ++ t.data) := by
        rw [strAppend_data]; rfl
      unfold isAbs
      rw [hdata]

theorem isAbs_outputExt (fmt : String) : isAbs (outputExt fmt) = false := by
  unfold outputExt
  split <;> decide

/-- The path `save_output` forms for a slug and format, before consulting the
filesystem: `Path("outputs") / f"{slug}.{ext}"`. -/
theorem save_output_path (writeOk : String → Bool) (slug fmt content p : String)
    (h : save_output writeOk slug fmt content = Except.ok p) :
    p = pathJoin "outputs" (slug ++ "." ++ outputExt fmt) := by
  simp only [save_output] at h
  split at h
  · cases h; rfl
  · cases h

/-- The scrutinised absoluteness of the joined file name reduces to the
absoluteness of the slug: the appended dot and extension never begin with a
slash. -/
theorem isAbs_slug_dot_ext (slug fmt : String) :
    isAbs (slug ++ "." ++ outputExt fmt) = isAbs slug := by
  rw [isAbs_append _ _ (isAbs_outputExt fmt), isAbs_append _ "." (by decide)]

/-- Appending further jobs after one that fails does not change the run:
the loop never reaches them. -/
theorem processJobs_append_of_isSome (c : Ctx) (environment region : String) :
    ∀ (jobs : List (String × Except Err Descriptor)) (i : Nat) (tr : Trace)
      (rest : List (String × Except Err Descriptor)),
      (processJobs c environment region i jobs tr).2.isSome = true →
      processJobs c environment region i (jobs ++ rest) tr =
        processJobs c environment region i jobs tr := by
  intro jobs
  induction jobs with
  | nil =>
    intro i tr rest h
    simp [processJobs] at h
  | cons job jobs ih =>
    intro i tr rest h
    obtain ⟨path, dres⟩ := job
    cases dres with
    | error e => simp [processJobs]
    | ok cfg =>
      cases hr : render_template c.templates cfg.template cfg.vars with
      | error e => simp [processJobs, hr]
      | ok prompt =>
        cases hb : call_bedrock c.invoke_model prompt cfg.max_tokens region with
        | error e => simp [processJobs, hr, hb]
        | ok output =>
          cases hs : save_output c.writeOk cfg.slug cfg.output_format output with
          | error e => simp [processJobs, hr, hb, hs]
          | ok out_file =>
            cases hu : upload_to_s3 (c.envAtUpload i) c.uploadOk out_file environment with
            | error e => simp [processJobs, hr, hb, hs, hu]
            | ok up =>
              have h' :
                  (processJobs c environment region (i + 1) jobs
                    ⟨tr.written ++ [(out_file, output)], tr.uploads ++ [up]⟩).2.isSome = true := by
                simpa [processJobs, hr, hb, hs, hu] using h
              simpa [processJobs, hr, hb, hs, hu] using ih (i + 1) _ rest h'

/-! ### Concrete fixtures for witnesses and counterexamples -/

/-- The template directory of the spec's end-to-end scenario: one template
whose body is the literal text around one placeholder. -/
def exTemplates : List (String × TplAst) :=
  [("greet.tmpl", [TplPart.lit "Hello, ", TplPart.var "name", TplPart.lit "!"])]

/-- A generation service that always answers with a well-formed body. -/
def okService : String → String → Json → Except Err Json := fun _ _ _ =>
  Except.ok (Json.obj [("content", Json.arr [Json.obj [("text", Json.str "Hi Ada, welcome!")]])])

/-- A generation service whose every call fails at transport level. -/
def downService : String → String → Json → Except Err Json := fun _ _ _ =>
  Except.error Err.generationServiceError

/-- An environment with both required variables set. -/
def envFull : EnvMap := [("AWS_REGION", "us-east-1"), ("S3_BUCKET", "bkt")]

/-- An environment missing `AWS_REGION`. -/
def envNoRegion : EnvMap := [("S3_BUCKET", "bkt")]

/-- An environment with `AWS_REGION` set but `S3_BUCKET` unset. -/
def envNoBucket : EnvMap := [("AWS_REGION", "us-east-1")]

/-- The spec's scenario-1 job descriptor. -/
def descOk : Descriptor :=
  { template := "greet.tmpl", vars := [("name", "Ada")], max_tokens := 50,
    slug := "ada-greeting", output_format := "md" }

/-- A descriptor naming a template file that does not exist. -/
def descMissingTpl : Descriptor :=
  { template := "absent.tmpl", vars := [("name", "Ada")], max_tokens := 50,
    slug := "broken", output_format := "md" }

/-- A descriptor whose variable mapping is empty although its template
references `name`. -/
def descNoVars : Descriptor :=
  { template := "greet.tmpl", vars := [], max_tokens := 50,
    slug := "ada", output_format := "md" }

/-- The happy-path context: templates present, service up, filesystem and
object store accepting everything, ambient environment stable. -/
def ctxOk : Ctx :=
  { templates := exTemplates, invoke_model := okService,
    writeOk := fun _ => true, uploadOk := fun _ _ => true,
    envAtUpload := fun _ => envFull }

/-- A fully successful single-job world. -/
def wOk : World :=
  { toCtx := ctxOk, env0 := envFull,
    descriptors := [("prompts/a.json", Except.ok descOk)] }

/-- A context whose generation service is down. -/
def ctxDown : Ctx :=
  { ctxOk with invoke_model := downService }

/-- A world whose only job names a missing template file. -/
def wC2 : World :=
  { toCtx := ctxOk, env0 := envFull,
    descriptors := [("prompts/bad.json", Except.ok descMissingTpl)] }

/-- A world whose only job's variable mapping omits the template's
referenced variable. -/
def wC1 : World :=
  { toCtx := ctxOk, env0 := envFull,
    descriptors := [("prompts/a.json", Except.ok descNoVars)] }

/-- A world whose startup environment lacks `AWS_REGION`. -/
def wC4 : World :=
  { toCtx := ctxOk, env0 := envNoRegion, descriptors := [] }

/-- Like `wOk`, but the ambient environment read at upload time names a
different bucket than the one standing at startup. -/
def wC8b : World :=
  { wOk with envAtUpload := fun _ => [("AWS_REGION", "us-east-1"), ("S3_BUCKET", "bkt2")] }

/-- A world whose environment (at startup and at upload time) has
`AWS_REGION` but no `S3_BUCKET`. -/
def wC9 : World :=
  { templates := exTemplates, invoke_model := okService,
    writeOk := fun _ => true, uploadOk := fun _ _ => true,
    envAtUpload := fun _ => envNoBucket, env0 := envNoBucket,
    descriptors := [("prompts/a.json", Except.ok descOk)] }

/-! ### C1 -/

/-- C1 counterexample: the template body references `name`, the variable
mapping is empty, yet `render_template` succeeds (jinja2's default
undefined renders as the empty string, no exception), and the full run
still writes the job's local output file. -/
theorem undefined_variable_no_failure_counterexample :
    render_template exTemplates "greet.tmpl" [] = Except.ok "Hello, !" ∧
    TplPart.var "name" ∈ [TplPart.lit "Hello, ", TplPart.var "name", TplPart.lit "!"] ∧
    lookupKey ([] : List (String × String)) "name" = none ∧
    (main wC1).1.written = [("outputs/ada.md", "Hi Ada, welcome!")] := by
  decide

/-- C1 (amended): when the template file exists, rendering a job whose
template references a variable absent from the variable mapping does not
fail: `render_template` returns the rendered text, in which the absent
variable's placeholder contributes the empty string. -/
theorem render_ok_despite_absent_variable
    (templates : List (String × TplAst)) (template_name : String) (tpl : TplAst)
    (vars : List (String × String)) (v : String)
    (htpl : lookupKey templates template_name = some tpl)
    (href : TplPart.var v ∈ tpl)
    (hmiss : lookupKey vars v = none) :
    render_template templates template_name vars = Except.ok (jinjaRender tpl vars) ∧
      (lookupKey vars v).getD "" = "" := by
  refine ⟨?_, by rw [hmiss]; rfl⟩
  simp [render_template, htpl]

/-- Witness for `render_ok_despite_absent_variable` at the scenario-1
template with an empty variable mapping. -/
theorem render_ok_despite_absent_variable_witness :
    lookupKey exTemplates "greet.tmpl" =
      some [TplPart.lit "Hello, ", TplPart.var "name", TplPart.lit "!"] ∧
    TplPart.var "name" ∈ [TplPart.lit "Hello, ", TplPart.var "name", TplPart.lit "!"] ∧
    lookupKey ([] : List (String × String)) "name" = none ∧
    (render_template exTemplates "greet.tmpl" [] =
        Except.ok (jinjaRender [TplPart.lit "Hello, ", TplPart.var "name", TplPart.lit "!"] []) ∧
      (lookupKey ([] : List (String × String)) "name").getD "" = "") :=
  ⟨by decide, by decide, by decide,
    render_ok_despite_absent_variable exTemplates "greet.tmpl"
      [TplPart.lit "Hello, ", TplPart.var "name", TplPart.lit "!"] [] "name"
      (by decide) (by decide) (by decide)⟩

/-! ### C2 -/

/-- C2: when a run over some descriptor list fails (at any stage of any
job, or even at startup), appending further discovered descriptors changes
nothing: the extended run produces the identical trace and error, so no
stage of any later job runs, no output file is written for it and no upload
is attempted for it. -/
theorem run_aborts_on_first_failure (w : World)
    (rest : List (String × Except Err Descriptor))
    (h : (main w).2.isSome = true) :
    main { w with descriptors := w.descriptors ++ rest } = main w := by
  obtain ⟨c, env0, ds⟩ := w
  cases hv : lookupKey env0 "AWS_REGION" with
  | none => simp [main, hv]
  | some region =>
    simp only [main, hv] at h ⊢
    exact processJobs_append_of_isSome c _ region ds 0 ⟨[], []⟩ rest h

/-- Witness for `run_aborts_on_first_failure`: the single job's template
file is missing, and appending a second, healthy job leaves the run's
outcome untouched. -/
theorem run_aborts_on_first_failure_witness :
    (main wC2).2.isSome = true ∧
      main { wC2 with descriptors := wC2.descriptors ++ [("prompts/a.json", Except.ok descOk)] } =
        main wC2 :=
  ⟨by decide,
    run_aborts_on_first_failure wC2 [("prompts/a.json", Except.ok descOk)] (by decide)⟩

/-! ### C3 -/

/-- C3: when a job's generation call fails — the service call errors or its
response lacks the expected text field, both surfacing as an error from
`call_bedrock` — the loop stops with the trace it had: the job's output
file is not written and no upload is attempted for it (or for anything
after it). -/
theorem generation_failure_writes_and_uploads_nothing
    (c : Ctx) (environment region path prompt : String) (i : Nat)
    (cfg : Descriptor) (rest : List (String × Except Err Descriptor))
    (tr : Trace) (e : Err)
    (hrender : render_template c.templates cfg.template cfg.vars = Except.ok prompt)
    (hgen : call_bedrock c.invoke_model prompt cfg.max_tokens region = Except.error e) :
    processJobs c environment region i ((path, Except.ok cfg) :: rest) tr = (tr, some e) := by
  simp [processJobs, hrender, hgen]

/-- Witness for `generation_failure_writes_and_uploads_nothing` with a
downed service and the scenario-1 descriptor. -/
theorem generation_failure_writes_and_uploads_nothing_witness :
    render_template ctxDown.templates descOk.template descOk.vars = Except.ok "Hello, Ada!" ∧
    call_bedrock ctxDown.invoke_model "Hello, Ada!" descOk.max_tokens "us-east-1" =
      Except.error Err.generationServiceError ∧
    processJobs ctxDown "beta" "us-east-1" 0 [("prompts/a.json", Except.ok descOk)] ⟨[], []⟩ =
      (⟨[], []⟩, some Err.generationServiceError) :=
  ⟨by decide, by decide,
    generation_failure_writes_and_uploads_nothing ctxDown "beta" "us-east-1" "prompts/a.json"
      "Hello, Ada!" 0 descOk [] ⟨[], []⟩ Err.generationServiceError (by decide) (by decide)⟩

/-! ### C4 -/

/-- C4: when the startup environment lacks `AWS_REGION`, the run fails at
once with the missing-setting error (`os.environ["AWS_REGION"]` raising,
the spec's `ConfigurationError`), whatever descriptors discovery would
yield: the result is the same for every descriptor list, with an empty
trace — no descriptor is consumed, nothing is rendered, generated, written
or uploaded. -/
theorem missing_region_aborts_before_any_job (w : World)
    (h : lookupKey w.env0 "AWS_REGION" = none) :
    ∀ ds : List (String × Except Err Descriptor),
      main { w with descriptors := ds } =
        (⟨[], []⟩, some (Err.missingEnvVar "AWS_REGION")) := by
  obtain ⟨c, env0, ds0⟩ := w
  intro ds
  simp only at h
  simp [main, h]

/-- Witness for `missing_region_aborts_before_any_job` with a healthy job
present. -/
theorem missing_region_aborts_before_any_job_witness :
    lookupKey wC4.env0 "AWS_REGION" = none ∧
      main { wC4 with descriptors := [("prompts/a.json", Except.ok descOk)] } =
        (⟨[], []⟩, some (Err.missingEnvVar "AWS_REGION")) :=
  ⟨by decide,
    missing_region_aborts_before_any_job wC4 (by decide) [("prompts/a.json", Except.ok descOk)]⟩

/-! ### C5 -/

/-- C5: the local output file extension computed by `save_output` is a pure
function of the output-format tag: the written path is always
`outputs/<slug>.<outputExt fmt>`, where `outputExt` maps the tag "html" to
"html" and every other tag to "md". -/
theorem output_extension_pure_function
    (writeOk : String → Bool) (slug fmt content p : String)
    (h : save_output writeOk slug fmt content = Except.ok p) :
    p = pathJoin "outputs" (slug ++ "." ++ outputExt fmt) ∧
      outputExt "html" = "html" ∧ (fmt ≠ "html" → outputExt fmt = "md") := by
  refine ⟨save_output_path writeOk slug fmt content p h, rfl, fun hne => ?_⟩
  simp [outputExt, hne]

/-- Witness for `output_extension_pure_function` at a non-"html" tag. -/
theorem output_extension_pure_function_witness :
    save_output (fun _ => true) "ada-greeting" "txt" "Hi" = Except.ok "outputs/ada-greeting.md" ∧
      ("outputs/ada-greeting.md" = pathJoin "outputs" ("ada-greeting" ++ "." ++ outputExt "txt") ∧
        outputExt "html" = "html" ∧ ("txt" ≠ "html" → outputExt "txt" = "md")) :=
  ⟨by decide,
    output_extension_pure_function (fun _ => true) "ada-greeting" "txt" "Hi"
      "outputs/ada-greeting.md" (by decide)⟩

/-! ### C6 -/

/-- C6: the object key of every performed upload is the pure function
`environment ++ "/outputs/" ++ <file name>` of the environment tag and the
local file's name. -/
theorem upload_key_pure_function (envNow : EnvMap) (uploadOk : String → String → Bool)
    (file_path environment : String) (up : Upload)
    (h : upload_to_s3 envNow uploadOk file_path environment = Except.ok up) :
    up.key = environment ++ "/outputs/" ++ pathName file_path := by
  simp only [upload_to_s3] at h
  split at h
  · cases h
  · split at h
    · cases h
    · split at h
      · cases h; rfl
      · cases h

/-- Witness for `upload_key_pure_function` on the scenario-1 artifact. -/
theorem upload_key_pure_function_witness :
    upload_to_s3 envFull (fun _ _ => true) "outputs/ada-greeting.md" "beta" =
      Except.ok { bucket := "bkt", key := "beta/outputs/ada-greeting.md",
                  contentType := "text/markdown", region := "us-east-1" } ∧
      ({ bucket := "bkt", key := "beta/outputs/ada-greeting.md",
         contentType := "text/markdown", region := "us-east-1" } : Upload).key =
        "beta" ++ "/outputs/" ++ pathName "outputs/ada-greeting.md" :=
  ⟨by decide,
    upload_key_pure_function envFull (fun _ _ => true) "outputs/ada-greeting.md" "beta"
      { bucket := "bkt", key := "beta/outputs/ada-greeting.md",
        contentType := "text/markdown", region := "us-east-1" } (by decide)⟩

/-! ### C7 -/

/-- C7: the content type of every performed upload is a pure function of
the local file's extension: ".html" yields "text/html" and every other
extension yields "text/markdown". -/
theorem upload_content_type_pure_function (envNow : EnvMap)
    (uploadOk : String → String → Bool) (file_path environment : String) (up : Upload)
    (h : upload_to_s3 envNow uploadOk file_path environment = Except.ok up) :
    up.contentType = if pathSuffix file_path = ".html" then "text/html" else "text/markdown" := by
  simp only [upload_to_s3] at h
  split at h
  · cases h
  · split at h
    · cases h
    · split at h
      · cases h; rfl
      · cases h

/-- Witness for `upload_content_type_pure_function` on an ".html"
artifact. -/
theorem upload_content_type_pure_function_witness :
    upload_to_s3 envFull (fun _ _ => true) "outputs/ada-greeting.html" "beta" =
      Except.ok { bucket := "bkt", key := "beta/outputs/ada-greeting.html",
                  contentType := "text/html", region := "us-east-1" } ∧
      ({ bucket := "bkt", key := "beta/outputs/ada-greeting.html",
         contentType := "text/html", region := "us-east-1" } : Upload).contentType =
        if pathSuffix "outputs/ada-greeting.html" = ".html" then "text/html" else "text/markdown" :=
  ⟨by decide,
    upload_content_type_pure_function envFull (fun _ _ => true) "outputs/ada-greeting.html" "beta"
      { bucket := "bkt", key := "beta/outputs/ada-greeting.html",
        contentType := "text/html", region := "us-east-1" } (by decide)⟩

/-! ### C8 -/

/-- C8 counterexample: two worlds with identical startup environments —
only the ambient environment standing at upload time differs (`S3_BUCKET`
renamed) — produce different runs, because `upload_to_s3` re-reads
`AWS_REGION` and `S3_BUCKET` from the ambient environment at each upload
rather than using values captured at startup. -/
theorem config_reread_mid_run_counterexample :
    wOk.env0 = wC8b.env0 ∧ main wOk ≠ main wC8b :=
  ⟨rfl, by decide⟩

/-- C8 (amended): the startup reads are exactly `ENVIRONMENT` (defaulted to
"beta") and `AWS_REGION` — the run is unchanged under any replacement of
the startup environment that preserves those two values, so `S3_BUCKET` is
not read at startup; the bucket and region used by each upload come from
the ambient environment as it stands at that upload. -/
theorem startup_reads_only_env_tag_and_region (w : World) (env0' : EnvMap)
    (he : lookupKey env0' "ENVIRONMENT" = lookupKey w.env0 "ENVIRONMENT")
    (hr : lookupKey env0' "AWS_REGION" = lookupKey w.env0 "AWS_REGION") :
    main { w with env0 := env0' } = main w := by
  obtain ⟨c, env0, ds⟩ := w
  simp only at he hr
  simp only [main, he, hr]

/-- Witness for `startup_reads_only_env_tag_and_region`: deleting
`S3_BUCKET` from the startup environment of a fully successful run changes
nothing. -/
theorem startup_reads_only_env_tag_and_region_witness :
    lookupKey envNoBucket "ENVIRONMENT" = lookupKey wOk.env0 "ENVIRONMENT" ∧
    lookupKey envNoBucket "AWS_REGION" = lookupKey wOk.env0 "AWS_REGION" ∧
    main { wOk with env0 := envNoBucket } = main wOk :=
  ⟨by decide, by decide,
    startup_reads_only_env_tag_and_region wOk envNoBucket (by decide) (by decide)⟩

/-! ### C9 -/

/-- C9: with `AWS_REGION` set but `S3_BUCKET` unset, a run whose first job
is otherwise healthy does not fail at startup: the first descriptor is
consumed, its prompt rendered, the generation call made and its output file
written, and the run fails only when `upload_to_s3` reads `S3_BUCKET` at
the first upload — the trace holds the written file and no upload. -/
theorem missing_bucket_fails_at_first_upload (w : World) (path : String)
    (cfg : Descriptor) (rest : List (String × Except Err Descriptor))
    (prompt output region r1 : String)
    (hds : w.descriptors = (path, Except.ok cfg) :: rest)
    (hregion0 : lookupKey w.env0 "AWS_REGION" = some region)
    (hrender : render_template w.templates cfg.template cfg.vars = Except.ok prompt)
    (hgen : call_bedrock w.invoke_model prompt cfg.max_tokens region = Except.ok output)
    (hwrite : w.writeOk (pathJoin "outputs" (cfg.slug ++ "." ++ outputExt cfg.output_format)) = true)
    (hupr : lookupKey (w.envAtUpload 0) "AWS_REGION" = some r1)
    (hupb : lookupKey (w.envAtUpload 0) "S3_BUCKET" = none) :
    main w =
      (⟨[(pathJoin "outputs" (cfg.slug ++ "." ++ outputExt cfg.output_format), output)], []⟩,
       some (Err.missingEnvVar "S3_BUCKET")) := by
  obtain ⟨c, env0, ds⟩ := w
  simp only at hds hregion0 hrender hgen hwrite hupr hupb
  subst hds
  simp [main, hregion0, processJobs, hrender, hgen, save_output, hwrite,
    upload_to_s3, hupr, hupb]

/-- Witness for `missing_bucket_fails_at_first_upload` on a world whose
environment lacks only `S3_BUCKET`. -/
theorem missing_bucket_fails_at_first_upload_witness :
    wC9.descriptors = ("prompts/a.json", Except.ok descOk) :: [] ∧
    lookupKey wC9.env0 "AWS_REGION" = some "us-east-1" ∧
    render_template wC9.templates descOk.template descOk.vars = Except.ok "Hello, Ada!" ∧
    call_bedrock wC9.invoke_model "Hello, Ada!" descOk.max_tokens "us-east-1" =
      Except.ok "Hi Ada, welcome!" ∧
    wC9.writeOk (pathJoin "outputs" (descOk.slug ++ "." ++ outputExt descOk.output_format)) = true ∧
    lookupKey (wC9.envAtUpload 0) "AWS_REGION" = some "us-east-1" ∧
    lookupKey (wC9.envAtUpload 0) "S3_BUCKET" = none ∧
    main wC9 =
      (⟨[(pathJoin "outputs" (descOk.slug ++ "." ++ outputExt descOk.output_format),
          "Hi Ada, welcome!")], []⟩,
       some (Err.missingEnvVar "S3_BUCKET")) :=
  ⟨by decide, by decide, by decide, by decide, by decide, by decide, by decide,
    missing_bucket_fails_at_first_upload wC9 "prompts/a.json" descOk []
      "Hello, Ada!" "Hi Ada, welcome!" "us-east-1" "us-east-1"
      (by decide) (by decide) (by decide) (by decide) (by decide) (by decide) (by decide)⟩

/-! ### C10 -/

/-- C10 counterexample: for the slug "/etc/x" the written path is
"/etc/x.md" — pathlib's join discards the "outputs" prefix for an absolute
right operand — which is not the concatenation the claim states for every
slug (the escape outside the outputs directory itself is real). -/
theorem absolute_slug_counterexample :
    save_output (fun _ => true) "/etc/x" "md" "generated" = Except.ok "/etc/x.md" ∧
      "/etc/x.md" ≠ "outputs/" ++ "/etc/x" ++ "." ++ "md" := by
  decide

/-- C10 (amended): `save_output` uses the slug verbatim, with no
sanitization: for every slug not beginning with a slash the written path is
exactly `"outputs/" ++ slug ++ "." ++ ext` — so a slug with
path-separator components such as "../x" escapes the outputs directory —
while a slug beginning with a slash replaces the outputs prefix entirely,
the path being `slug ++ "." ++ ext`. -/
theorem slug_used_verbatim_in_output_path (writeOk : String → Bool)
    (slug fmt content p : String)
    (h : save_output writeOk slug fmt content = Except.ok p) :
    (isAbs slug = false → p = "outputs/" ++ slug ++ "." ++ outputExt fmt) ∧
      (isAbs slug = true → p = slug ++ "." ++ outputExt fmt) := by
  have hp := save_output_path writeOk slug fmt content p h
  constructor
  · intro habs
    rw [hp]
    have h1 : pathJoin "outputs" (slug ++ "." ++ outputExt fmt)
        = ("outputs" ++ "/") ++ (slug ++ "." ++ outputExt fmt) := by
      simp [pathJoin, isAbs_slug_dot_ext, habs]
    have h2 : ("outputs" ++ "/" : String) = "outputs/" := by decide
    rw [h1, h2, ← strAppend_assoc, ← strAppend_assoc]
  · intro habs
    rw [hp]
    simp [pathJoin, isAbs_slug_dot_ext, habs]

/-- Witness for `slug_used_verbatim_in_output_path` at the
path-traversal slug "../x": the file lands at "outputs/../x.md", outside
the outputs directory. -/
theorem slug_used_verbatim_in_output_path_witness :
    save_output (fun _ => true) "../x" "md" "generated" = Except.ok "outputs/../x.md" ∧
      ((isAbs "../x" = false → "outputs/../x.md" = "outputs/" ++ "../x" ++ "." ++ outputExt "md") ∧
        (isAbs "../x" = true → "outputs/../x.md" = "../x" ++ "." ++ outputExt "md")) :=
  ⟨by decide,
    slug_used_verbatim_in_output_path (fun _ => true) "../x" "md" "generated"
      "outputs/../x.md" (by decide)⟩

end ProcessPrompt
